import Mathlib

/-!
# Verification of the Deck entity-resolution and action-dispatch layer

This file gives a shallow embedding, in Lean, of the core of the
`mcp-nextcloud-deck` server: the `DeckClient` operations
(`src/deck/deck-client.ts`) and the tool handlers
(`deck-handlers.ts`).  The remote Nextcloud Deck API is modelled as a
`Remote` value: a snapshot of the board/stack/card hierarchy together
with a table of endpoints that answer with a non-success HTTP status.
Every operation is embedded as a function returning an
`Except DeckError α` result paired with the list of remote calls it
issued, in order; the response payloads of write calls (which the code
passes through verbatim) are abstracted to `Unit`.

JavaScript truthiness is modelled faithfully: an absent (`undefined`)
or zero numeric id is falsy (`truthy`), and an absent or empty string
is falsy (`truthyStr`).  `JSON.stringify` dropping `undefined`-valued
keys is modelled by omitting absent optional fields from request
bodies.
-/

/-- HTTP method of a remote call. -/
inductive Method where
  | GET
  | POST
  | PUT
  | DELETE
  deriving DecidableEq

/-- A JSON value appearing in a request body (only the shapes the code sends). -/
inductive Value where
  | vNat : Nat → Value
  | vStr : String → Value
  | vBool : Bool → Value
  | vNull : Value
  deriving DecidableEq

/-- One outgoing remote call: method, endpoint path and JSON body
(as an ordered key/value list, mirroring object-literal key order). -/
structure RemoteCall where
  method : Method
  endpoint : String
  body : List (String × Value)
  deriving DecidableEq

/-- Errors surfaced to the caller, tagged with the error taxonomy of the spec
(each constructor corresponds to a distinct `throw new Error(...)` site). -/
inductive DeckError where
  | missingParameter : String → DeckError
  | notFound : String → DeckError
  | remoteError : Nat → String → DeckError
  | unsupportedAction : String → DeckError
  deriving DecidableEq

deriving instance DecidableEq for Except

/-- Result of an embedded operation: outcome plus the ordered trace of
remote calls issued. -/
abbrev Res (α : Type) : Type := Except DeckError α × List RemoteCall

/-- Sequencing of traced operations: on error the continuation never
runs (JS `await` propagating a thrown error). -/
def rbind {α β : Type} (x : Res α) (f : α → Res β) : Res β :=
  match x with
  | (.ok a, t) => ((f a).1, t ++ (f a).2)
  | (.error e, t) => (.error e, t)

/-- A GET call (empty body). -/
def callGET (e : String) : RemoteCall := ⟨.GET, e, []⟩

/-- JS truthiness of an optional numeric id: `undefined` and `0` are falsy. -/
def truthy : Option Nat → Bool
  | none => false
  | some n => n != 0

/-- JS truthiness of an optional string: `undefined` and `""` are falsy. -/
def truthyStr : Option String → Bool
  | none => false
  | some s => s != ""

/-- JS template-literal rendering of a possibly-`undefined` number. -/
def optNatStr : Option Nat → String
  | some n => toString n
  | none => "undefined"

/-- Boolean prefix test on character lists. -/
def listPrefixB : List Char → List Char → Bool
  | [], _ => true
  | _ :: _, [] => false
  | a :: as, b :: bs => a == b && listPrefixB as bs

/-- Boolean contiguous-substring test on character lists
(JS `String.prototype.includes`). -/
def listInfixB (p : List Char) : List Char → Bool
  | [] => listPrefixB p []
  | b :: bs => listPrefixB p (b :: bs) || listInfixB p bs

/-- `strContains hay needle`: JS `hay.includes(needle)`. -/
def strContains (hay needle : String) : Bool :=
  listInfixB needle.data hay.data

/-! ## Data model (the fields of `types.ts` the core logic inspects) -/

/-- A Deck card (`DeckCard` in `types.ts`, restricted to the fields the
core reads: id for lookup, title/description/archived/done for the
board-wide filters).  `done` is `boolean | null` in the source, hence
`Option Bool`. -/
structure DeckCard where
  id : Nat
  title : String
  description : String
  archived : Bool
  done : Option Bool
  deriving DecidableEq

/-- A Deck stack with its embedded card list (`DeckStack` in `types.ts`). -/
structure DeckStack where
  id : Nat
  title : String
  cards : List DeckCard
  deriving DecidableEq

/-- A Deck board; in the remote snapshot each board carries the stacks
(with embedded cards) that `GET /boards/{id}/stacks` would return. -/
structure DeckBoard where
  id : Nat
  title : String
  stackList : List DeckStack
  deriving DecidableEq

/-- An endpoint stipulated to answer with a non-success HTTP status. -/
structure HttpFailure where
  endpoint : String
  status : Nat
  body : String
  deriving DecidableEq

/-- The remote system: the current hierarchy snapshot plus the table of
failing endpoints. -/
structure Remote where
  boards : List DeckBoard
  failures : List HttpFailure
  deriving DecidableEq

/-- Non-success response stipulated for an endpoint, if any. -/
def failureAt (r : Remote) (e : String) : Option (Nat × String) :=
  (r.failures.find? (fun f => f.endpoint == e)).map (fun f => (f.status, f.body))

/-- Every stack of the snapshot, in board-listing order. -/
def allStacks (r : Remote) : List DeckStack :=
  (r.boards.map DeckBoard.stackList).flatten

/-- Message of the error thrown by the generic `request` helper
(`deck-client.ts` line 71): includes the status code and the remote
body verbatim. -/
def httpMsg (status : Nat) (body : String) : String :=
  "Deck API Error (" ++ toString status ++ "): " ++ body

/-- The error thrown by the generic `request` helper on `!response.ok`. -/
def httpError (status : Nat) (body : String) : DeckError :=
  .remoteError status (httpMsg status body)

/-- A write-style remote call through the generic `request` helper: the
call is always issued; a stipulated non-success response raises the
`request` error, otherwise the (passed-through) payload is abstracted
to `Unit`. -/
def requestW (r : Remote) (m : Method) (e : String) (body : List (String × Value)) : Res Unit :=
  match failureAt r e with
  | some (st, b) => (.error (httpError st b), [⟨m, e, body⟩])
  | none => (.ok (), [⟨m, e, body⟩])

/-! ## Read primitives (`getBoards`, `getStacks`, `getCards`) -/

/-- Endpoint of `getStacks(boardId)`. -/
def stacksEndpoint (boardId : Nat) : String :=
  "/boards/" ++ toString boardId ++ "/stacks"

/-- Endpoint of `getCards(stackId)` (`GET /stacks/{stackId}`). -/
def cardsEndpoint (stackId : Nat) : String :=
  "/stacks/" ++ toString stackId

/-- `getBoards()`: `GET /boards`. -/
def getBoardsR (r : Remote) : Res (List DeckBoard) :=
  match failureAt r "/boards" with
  | some (st, b) => (.error (httpError st b), [callGET "/boards"])
  | none => (.ok r.boards, [callGET "/boards"])

/-- `getStacks(boardId)`: `GET /boards/{boardId}/stacks`.  A request for
a board id absent from the snapshot is modelled as a 404 with empty
body. -/
def getStacksR (r : Remote) (boardId : Nat) : Res (List DeckStack) :=
  match failureAt r (stacksEndpoint boardId) with
  | some (st, b) => (.error (httpError st b), [callGET (stacksEndpoint boardId)])
  | none =>
    match r.boards.find? (fun x => x.id == boardId) with
    | some b => (.ok b.stackList, [callGET (stacksEndpoint boardId)])
    | none => (.error (httpError 404 ""), [callGET (stacksEndpoint boardId)])

/-- `getCards(stackId)`: `GET /stacks/{stackId}`, returning the embedded
card list of the stack (`response.cards || []`).  An unknown stack id is
modelled as a 404 with empty body. -/
def getCardsR (r : Remote) (stackId : Nat) : Res (List DeckCard) :=
  match failureAt r (cardsEndpoint stackId) with
  | some (st, b) => (.error (httpError st b), [callGET (cardsEndpoint stackId)])
  | none =>
    match (allStacks r).find? (fun s => s.id == stackId) with
    | some s => (.ok s.cards, [callGET (cardsEndpoint stackId)])
    | none => (.error (httpError 404 ""), [callGET (cardsEndpoint stackId)])

/-! ## Caller argument bundles (runtime shapes: optional fields may be
absent, mirroring the open `z.record(z.any())` payloads) -/

/-- `UpdateCardData` (`types.ts`): `cardId` plus optional ancestors and
optional body fields, field order as in the interface. -/
structure UpdateCardData where
  cardId : Nat
  boardId : Option Nat := none
  stackId : Option Nat := none
  title : Option String := none
  type : Option String := none
  owner : Option String := none
  description : Option String := none
  order : Option Nat := none
  duedate : Option String := none
  done : Option Bool := none
  archived : Option Bool := none
  deriving DecidableEq

/-- `CreateCardData` (`types.ts`). -/
structure CreateCardData where
  title : String
  stackId : Nat
  boardId : Option Nat := none
  type : Option String := none
  order : Option Nat := none
  description : Option String := none
  duedate : Option String := none
  deriving DecidableEq

/-- `CreateStackData` (`types.ts`); at runtime `boardId` may be absent
(the open record is cast, never validated), hence `Option Nat`. -/
structure CreateStackData where
  title : String
  boardId : Option Nat := none
  order : Option Nat := none
  deriving DecidableEq

/-- `UpdateStackData` (`types.ts`). -/
structure UpdateStackData where
  title : Option String := none
  order : Option Nat := none
  deriving DecidableEq

/-- `UpdateLabelData` (`types.ts`). -/
structure UpdateLabelData where
  title : Option String := none
  color : Option String := none
  deriving DecidableEq

/-- Parameters of the plural `cards` read (`handleDeckRead`). -/
structure ReadCardsParams where
  stackId : Option Nat := none
  boardId : Option Nat := none
  search : Option String := none
  archived : Option Bool := none
  done : Option Bool := none
  deriving DecidableEq

/-- `ActionParams` as consumed by `performAction` (all accesses are
`(params as any).field`, so every field may be absent). -/
structure ActionParams where
  stackId : Option Nat := none
  order : Option Nat := none
  userId : Option String := none
  labelId : Option Nat := none
  deriving DecidableEq

/-- The `{ success, message }` acknowledgment returned by delete handlers. -/
structure DeleteAck where
  success : Bool
  message : String
  deriving DecidableEq

/-- A JSON object entry for an optional field: absent fields produce no
key (`JSON.stringify` drops `undefined`). -/
def optEntry (k : String) : Option Value → List (String × Value)
  | some v => [(k, v)]
  | none => []

/-! ## Card create/update/delete (`deck-client.ts`) -/

/-- Body of the card-update PUT: the rest-spread
`const { cardId, boardId: _, ...updateData } = data` — every field of
`UpdateCardData` except `cardId` and `boardId`, in interface order.
Note `stackId` is NOT removed. -/
def updateBody (d : UpdateCardData) : List (String × Value) :=
  optEntry "stackId" (d.stackId.map Value.vNat) ++
  optEntry "title" (d.title.map Value.vStr) ++
  optEntry "type" (d.type.map Value.vStr) ++
  optEntry "owner" (d.owner.map Value.vStr) ++
  optEntry "description" (d.description.map Value.vStr) ++
  optEntry "order" (d.order.map Value.vNat) ++
  optEntry "duedate" (d.duedate.map Value.vStr) ++
  optEntry "done" (d.done.map Value.vBool) ++
  optEntry "archived" (d.archived.map Value.vBool)

/-- Endpoint of the card update/delete terminal call. -/
def cardEndpoint (boardId stackId cardId : Nat) : String :=
  "/boards/" ++ toString boardId ++ "/stacks/" ++ toString stackId ++
  "/cards/" ++ toString cardId

/-- The terminal PUT of `updateCard`. -/
def putCard (r : Remote) (boardId stackId : Nat) (d : UpdateCardData) : Res Unit :=
  requestW r .PUT (cardEndpoint boardId stackId d.cardId) (updateBody d)

/-- The scanning loop shared verbatim by `updateCard` and `deleteCard`
(`deck-client.ts` lines 180-194 and 210-224): for each board fetch its
stacks; the first stack whose embedded cards contain `cardId`
overwrites both ids; the outer loop stops once `boardId && stackId` is
truthy. -/
def scanBoards (r : Remote) (cardId : Nat) (st : Option Nat × Option Nat) :
    List DeckBoard → Res (Option Nat × Option Nat)
  | [] => (.ok st, [])
  | b :: rest =>
    rbind (getStacksR r b.id) fun stks =>
      match stks.find? (fun s => s.cards.any (fun c => c.id == cardId)) with
      | some s =>
        if truthy (some b.id) && truthy (some s.id) then (.ok (some b.id, some s.id), [])
        else scanBoards r cardId (some b.id, some s.id) rest
      | none =>
        if truthy st.1 && truthy st.2 then (.ok st, [])
        else scanBoards r cardId st rest

/-- Card-ancestry resolution: `getBoards`, the scan, then the
`if (!boardId || !stackId) throw NotFound` check ending the resolution
block of `updateCard`/`deleteCard`. -/
def resolveCardAncestry (r : Remote) (cardId : Nat) (st : Option Nat × Option Nat) :
    Res (Nat × Nat) :=
  rbind (rbind (getBoardsR r) (fun boards => scanBoards r cardId st boards)) fun st2 =>
    if truthy st2.1 && truthy st2.2 then (.ok (st2.1.getD 0, st2.2.getD 0), [])
    else (.error (.notFound ("Card " ++ toString cardId ++ " not found in any board")), [])

/-- `DeckClient.updateCard` (lines 173-205): resolve missing ancestors,
then PUT with the rest-spread body. -/
def updateCardR (r : Remote) (d : UpdateCardData) : Res Unit :=
  if truthy d.boardId && truthy d.stackId then
    putCard r (d.boardId.getD 0) (d.stackId.getD 0) d
  else
    rbind (resolveCardAncestry r d.cardId (d.boardId, d.stackId)) fun bs =>
      putCard r bs.1 bs.2 d

/-- `DeckClient.deleteCard` (lines 207-232). -/
def deleteCardR (r : Remote) (cardId : Nat) (boardId stackId : Option Nat) : Res Unit :=
  if truthy boardId && truthy stackId then
    requestW r .DELETE (cardEndpoint (boardId.getD 0) (stackId.getD 0) cardId) []
  else
    rbind (resolveCardAncestry r cardId (boardId, stackId)) fun bs =>
      requestW r .DELETE (cardEndpoint bs.1 bs.2 cardId) []

/-- The board-for-stack loop of `DeckClient.createCard` (lines 148-158):
break as soon as a fetched stack list contains `stackId`. -/
def scanBoardsForStack (r : Remote) (stackId : Nat) (bId : Option Nat) :
    List DeckBoard → Res (Option Nat)
  | [] => (.ok bId, [])
  | b :: rest =>
    rbind (getStacksR r b.id) fun stks =>
      if (stks.find? (fun s => s.id == stackId)).isSome then (.ok (some b.id), [])
      else scanBoardsForStack r stackId bId rest

/-- Stack-to-board resolution of `createCard`: `getBoards`, the loop,
then the `if (!boardId) throw` check (line 159-161). -/
def resolveStackBoard (r : Remote) (stackId : Nat) (bId : Option Nat) : Res Nat :=
  rbind (rbind (getBoardsR r) (fun boards => scanBoardsForStack r stackId bId boards)) fun b =>
    if truthy b then (.ok (b.getD 0), [])
    else (.error (.notFound ("Stack " ++ toString stackId ++ " not found in any board")), [])

/-- Body of the card-creation POST (defaults applied at the terminal
call: type defaulting to "plain", order to 999, description to "",
`duedate ?? null`). -/
def createCardBody (d : CreateCardData) : List (String × Value) :=
  [("title", Value.vStr d.title),
   ("type", Value.vStr (d.type.getD "plain")),
   ("order", Value.vNat (d.order.getD 999)),
   ("description", Value.vStr (d.description.getD "")),
   ("duedate", d.duedate.elim Value.vNull Value.vStr)]

/-- The terminal POST of `createCard`. -/
def postCard (r : Remote) (boardId : Nat) (d : CreateCardData) : Res Unit :=
  requestW r .POST
    ("/boards/" ++ toString boardId ++ "/stacks/" ++ toString d.stackId ++ "/cards")
    (createCardBody d)

/-- `DeckClient.createCard` (lines 141-171). -/
def createCardR (r : Remote) (d : CreateCardData) : Res Unit :=
  if truthy d.boardId then postCard r (d.boardId.getD 0) d
  else rbind (resolveStackBoard r d.stackId d.boardId) fun b => postCard r b d

/-- `DeckClient.createStack` (lines 114-119): no validation — the POST
is issued with the interpolated (possibly `undefined`) board id. -/
def createStackR (r : Remote) (d : CreateStackData) : Res Unit :=
  requestW r .POST ("/boards/" ++ optNatStr d.boardId ++ "/stacks")
    [("title", Value.vStr d.title), ("order", Value.vNat (d.order.getD 999))]

/-! ## Stack / label / comment / attachment terminal calls -/

/-- `DeckClient.updateStack`. -/
def updateStackR (r : Remote) (boardId stackId : Nat) (d : UpdateStackData) : Res Unit :=
  requestW r .PUT ("/boards/" ++ toString boardId ++ "/stacks/" ++ toString stackId)
    (optEntry "title" (d.title.map Value.vStr) ++ optEntry "order" (d.order.map Value.vNat))

/-- `DeckClient.deleteStack`. -/
def deleteStackR (r : Remote) (boardId stackId : Nat) : Res Unit :=
  requestW r .DELETE ("/boards/" ++ toString boardId ++ "/stacks/" ++ toString stackId) []

/-- `DeckClient.updateLabel`. -/
def updateLabelR (r : Remote) (boardId labelId : Nat) (d : UpdateLabelData) : Res Unit :=
  requestW r .PUT ("/boards/" ++ toString boardId ++ "/labels/" ++ toString labelId)
    (optEntry "title" (d.title.map Value.vStr) ++ optEntry "color" (d.color.map Value.vStr))

/-- `DeckClient.deleteLabel`. -/
def deleteLabelR (r : Remote) (boardId labelId : Nat) : Res Unit :=
  requestW r .DELETE ("/boards/" ++ toString boardId ++ "/labels/" ++ toString labelId) []

/-- `DeckClient.deleteComment` (lines 299-313): a raw fetch outside the
generic `request` helper (base path `/index.php/apps/deck` abstracted);
on a non-success status it throws
`Failed to delete comment: {status}` — the response body is not read. -/
def deleteCommentR (r : Remote) (cardId commentId : Nat) : Res Unit :=
  let e := "/cards/" ++ toString cardId ++ "/comments/" ++ toString commentId
  match failureAt r e with
  | some (st, _) =>
    (.error (.remoteError st ("Failed to delete comment: " ++ toString st)), [⟨.DELETE, e, []⟩])
  | none => (.ok (), [⟨.DELETE, e, []⟩])

/-- `DeckClient.deleteAttachment`. -/
def deleteAttachmentR (r : Remote) (cardId attachmentId : Nat) : Res Unit :=
  requestW r .DELETE
    ("/cards/" ++ toString cardId ++ "/attachments/" ++ toString attachmentId) []

/-! ## Card actions and the action dispatcher (`deck-client.ts` 332-417) -/

/-- Body of the reorder PUT: `{ stackId, order: order ?? 999 }`; an
absent `stackId` key is dropped by `JSON.stringify`. -/
def moveBody (stackId order : Option Nat) : List (String × Value) :=
  optEntry "stackId" (stackId.map Value.vNat) ++ [("order", Value.vNat (order.getD 999))]

/-- `DeckClient.moveCard` (lines 334-339). -/
def moveCardR (r : Remote) (cardId : Nat) (stackId order : Option Nat) : Res Unit :=
  requestW r .PUT ("/cards/" ++ toString cardId ++ "/reorder") (moveBody stackId order)

/-- `DeckClient.reorderCard` (lines 377-379): delegates to `moveCard`. -/
def reorderCardR (r : Remote) (cardId : Nat) (stackId order : Option Nat) : Res Unit :=
  moveCardR r cardId stackId order

/-- `DeckClient.assignUser`. -/
def assignUserR (r : Remote) (cardId : Nat) (userId : Option String) : Res Unit :=
  requestW r .PUT ("/cards/" ++ toString cardId ++ "/assignUser")
    (optEntry "userId" (userId.map Value.vStr))

/-- `DeckClient.unassignUser`. -/
def unassignUserR (r : Remote) (cardId : Nat) (userId : Option String) : Res Unit :=
  requestW r .PUT ("/cards/" ++ toString cardId ++ "/unassignUser")
    (optEntry "userId" (userId.map Value.vStr))

/-- `DeckClient.assignLabel`. -/
def assignLabelR (r : Remote) (cardId : Nat) (labelId : Option Nat) : Res Unit :=
  requestW r .PUT ("/cards/" ++ toString cardId ++ "/labels/" ++ optNatStr labelId) []

/-- `DeckClient.removeLabel`. -/
def removeLabelR (r : Remote) (cardId : Nat) (labelId : Option Nat) : Res Unit :=
  requestW r .DELETE ("/cards/" ++ toString cardId ++ "/labels/" ++ optNatStr labelId) []

/-- `DeckClient.archiveCard`: sugar over `updateCard`. -/
def archiveCardR (r : Remote) (cardId : Nat) : Res Unit :=
  updateCardR r { cardId := cardId, archived := some true }

/-- `DeckClient.unarchiveCard`. -/
def unarchiveCardR (r : Remote) (cardId : Nat) : Res Unit :=
  updateCardR r { cardId := cardId, archived := some false }

/-- `DeckClient.markCardDone`. -/
def markCardDoneR (r : Remote) (cardId : Nat) : Res Unit :=
  updateCardR r { cardId := cardId, done := some true }

/-- `DeckClient.markCardUndone`. -/
def markCardUndoneR (r : Remote) (cardId : Nat) : Res Unit :=
  updateCardR r { cardId := cardId, done := some false }

/-- Entity tag accepted by `performAction` (zod-validated enum). -/
inductive Entity where
  | card
  | stack
  deriving DecidableEq

/-- The `DeckAction` enum (`types.ts`, zod-validated). -/
inductive DeckAction where
  | move
  | assign
  | unassign
  | add_label
  | remove_label
  | archive
  | unarchive
  | reorder
  | mark_done
  | mark_undone
  deriving DecidableEq

/-- `DeckClient.performAction` (lines 383-417): only `card` has
implemented actions; any action on `stack` throws before any remote
call. -/
def performAction (r : Remote) (entity : Entity) (id : Nat)
    (action : DeckAction) (p : ActionParams) : Res Unit :=
  match entity with
  | .card =>
    match action with
    | .move => moveCardR r id p.stackId p.order
    | .assign => assignUserR r id p.userId
    | .unassign => unassignUserR r id p.userId
    | .add_label => assignLabelR r id p.labelId
    | .remove_label => removeLabelR r id p.labelId
    | .archive => archiveCardR r id
    | .unarchive => unarchiveCardR r id
    | .mark_done => markCardDoneR r id
    | .mark_undone => markCardUndoneR r id
    | .reorder => reorderCardR r id p.stackId p.order
  | .stack =>
    (.error (.unsupportedAction "Actions for entity \"stack\" are not implemented"), [])

/-! ## Tool handlers (`deck-handlers.ts`) -/

/-- Character-wise lowercasing (JS `toLowerCase`, modelled for the
ASCII range). -/
def strLower (s : String) : String := ⟨s.data.map Char.toLower⟩

/-- Case-insensitive search match of the board-wide card filter
(the query is lowercased once; title and description are lowercased per
card). -/
def searchMatch (q : String) (c : DeckCard) : Bool :=
  strContains (strLower c.title) (strLower q) || strContains (strLower c.description) (strLower q)

/-- The in-process post-filters of the board-wide `cards` read
(`deck-handlers.ts` lines 122-136), applied in source order: `search`
(skipped when falsy), then `archived`, then `done` (each skipped when
the param is absent). -/
def applyFilters (p : ReadCardsParams) (l : List DeckCard) : List DeckCard :=
  let l1 := if truthyStr p.search then l.filter (searchMatch (p.search.getD "")) else l
  let l2 := match p.archived with
    | some a => l1.filter (fun c => c.archived == a)
    | none => l1
  match p.done with
  | some dn => l2.filter (fun c => c.done == some dn)
  | none => l2

/-- The per-stack accumulation loop of the board-wide `cards` read
(`for (const stack of stacks) { allCards.push(...cards) }`). -/
def readCardsLoop (r : Remote) : List DeckStack → Res (List DeckCard)
  | [] => (.ok [], [])
  | s :: rest =>
    rbind (getCardsR r s.id) fun cards =>
      rbind (readCardsLoop r rest) fun more => (.ok (cards ++ more), [])

/-- `handleDeckRead` case `cards` (lines 110-139): direct fetch when
`stackId` is truthy; otherwise the board-wide mode with post-filtering;
otherwise a validation error with no remote call. -/
def handleReadCards (r : Remote) (p : ReadCardsParams) : Res (List DeckCard) :=
  if truthy p.stackId then getCardsR r (p.stackId.getD 0)
  else if truthy p.boardId then
    rbind (getStacksR r (p.boardId.getD 0)) fun stks =>
      rbind (readCardsLoop r stks) fun allCards => (.ok (applyFilters p allCards), [])
  else (.error (.missingParameter "Either stackId or boardId is required to get cards"), [])

/-- `handleDeckRead` case `stacks`. -/
def handleReadStacks (r : Remote) (boardId : Option Nat) : Res (List DeckStack) :=
  if !truthy boardId then
    (.error (.missingParameter "Board ID is required to get stacks"), [])
  else getStacksR r (boardId.getD 0)

/-- `handleDeckUpdate` case `stack` (lines 194-198). -/
def handleUpdateStack (r : Remote) (id : Nat) (boardId : Option Nat)
    (d : UpdateStackData) : Res Unit :=
  if !truthy boardId then
    (.error (.missingParameter "Board ID is required to update stack"), [])
  else updateStackR r (boardId.getD 0) id d

/-- `handleDeckUpdate` case `card` (line 201):
`updateCard({ ...data, cardId: id })`. -/
def handleUpdateCard (r : Remote) (id : Nat) (d : UpdateCardData) : Res Unit :=
  updateCardR r { d with cardId := id }

/-- `handleDeckUpdate` case `label` (lines 203-207). -/
def handleUpdateLabel (r : Remote) (id : Nat) (boardId : Option Nat)
    (d : UpdateLabelData) : Res Unit :=
  if !truthy boardId then
    (.error (.missingParameter "Board ID is required to update label"), [])
  else updateLabelR r (boardId.getD 0) id d

/-- `handleDeckDelete` case `stack` (lines 225-230). -/
def handleDeleteStack (r : Remote) (id : Nat) (boardId : Option Nat) : Res DeleteAck :=
  if !truthy boardId then
    (.error (.missingParameter "Board ID is required to delete stack"), [])
  else
    rbind (deleteStackR r (boardId.getD 0) id) fun _ =>
      (.ok ⟨true, "Stack " ++ toString id ++ " deleted"⟩, [])

/-- `handleDeckDelete` case `card` (lines 232-234): no ancestors are
passed; `deleteCard` auto-resolves. -/
def handleDeleteCard (r : Remote) (id : Nat) : Res DeleteAck :=
  rbind (deleteCardR r id none none) fun _ =>
    (.ok ⟨true, "Card " ++ toString id ++ " deleted"⟩, [])

/-- `handleDeckDelete` case `label` (lines 236-241). -/
def handleDeleteLabel (r : Remote) (id : Nat) (boardId : Option Nat) : Res DeleteAck :=
  if !truthy boardId then
    (.error (.missingParameter "Board ID is required to delete label"), [])
  else
    rbind (deleteLabelR r (boardId.getD 0) id) fun _ =>
      (.ok ⟨true, "Label " ++ toString id ++ " deleted"⟩, [])

/-- `handleDeckDelete` case `comment` (lines 243-248). -/
def handleDeleteComment (r : Remote) (id : Nat) (cardId : Option Nat) : Res DeleteAck :=
  if !truthy cardId then
    (.error (.missingParameter "Card ID is required to delete comment"), [])
  else
    rbind (deleteCommentR r (cardId.getD 0) id) fun _ =>
      (.ok ⟨true, "Comment " ++ toString id ++ " deleted"⟩, [])

/-- `handleDeckDelete` case `attachment` (lines 250-255). -/
def handleDeleteAttachment (r : Remote) (id : Nat) (cardId : Option Nat) : Res DeleteAck :=
  if !truthy cardId then
    (.error (.missingParameter "Card ID is required to delete attachment"), [])
  else
    rbind (deleteAttachmentR r (cardId.getD 0) id) fun _ =>
      (.ok ⟨true, "Attachment " ++ toString id ++ " deleted"⟩, [])

/-! ## Spec-side definitions (written from the words of the specification, to
be compared with the code-derived definitions) -/

/-- Spec side: the first stack of a list whose embedded cards contain
`cardId`. -/
def firstOwningStack (cardId : Nat) (stks : List DeckStack) : Option DeckStack :=
  stks.find? (fun s => s.cards.any (fun c => c.id == cardId))

/-- Spec side, from section 4.2 of the specification: walk the boards in
listing order; return the first `(board.id, stack.id)` pair whose stack
contains `cardId`, together with the ids of the boards whose stack
lists were fetched (scanning stops at the owning board). -/
def specResolve (cardId : Nat) : List DeckBoard → Option (Nat × Nat) × List Nat
  | [] => (none, [])
  | b :: rest =>
    match firstOwningStack cardId b.stackList with
    | some s => (some (b.id, s.id), [b.id])
    | none =>
      match specResolve cardId rest with
      | (res, v) => (res, b.id :: v)

/-- Spec side, from section 4.2 of the specification: the single
predicate "restricted to cards whose title or description contains the
search string case-insensitively, and matching the explicitly supplied
`archived`/`done` flags; an absent param filters nothing". -/
def specCardPred (p : ReadCardsParams) (c : DeckCard) : Bool :=
  (match p.search with
   | some q => searchMatch q c
   | none => true) &&
  (match p.archived with
   | some a => c.archived == a
   | none => true) &&
  (match p.done with
   | some dn => c.done == some dn
   | none => true)

/-- Well-formedness of a remote snapshot, as guaranteed by the real
Deck API: board ids and stack ids are globally unique and positive
(Deck ids are positive auto-increment integers; id `0` never occurs). -/
def Remote.wf (r : Remote) : Prop :=
  (r.boards.map DeckBoard.id).Nodup ∧
  ((allStacks r).map DeckStack.id).Nodup ∧
  (∀ b ∈ r.boards, 0 < b.id) ∧
  (∀ s ∈ allStacks r, 0 < s.id)

instance (r : Remote) : Decidable r.wf := by
  unfold Remote.wf; infer_instance

/-! ## Helper lemmas -/

theorem rbind_ok {α β : Type} (a : α) (t : List RemoteCall) (f : α → Res β) :
    rbind (.ok a, t) f = ((f a).1, t ++ (f a).2) := rfl

theorem rbind_error {α β : Type} (e : DeckError) (t : List RemoteCall) (f : α → Res β) :
    rbind (.error e, t) f = (.error e, t) := rfl

theorem rbind_eta {α β : Type} (x : Res α) (f : α → Res β) :
    rbind x f = match x.1 with
      | .ok a => ((f a).1, x.2 ++ (f a).2)
      | .error e => (.error e, x.2) := by
  obtain ⟨x1, x2⟩ := x
  cases x1 <;> rfl

theorem listPrefixB_self_append (p t : List Char) : listPrefixB p (p ++ t) = true := by
  induction p with
  | nil => rfl
  | cons a as ih => simp [listPrefixB, ih]

theorem listInfixB_nil_left (l : List Char) : listInfixB [] l = true := by
  cases l <;> simp [listInfixB, listPrefixB]

theorem listInfixB_append (a p t : List Char) : listInfixB p (a ++ (p ++ t)) = true := by
  induction a with
  | nil =>
    simp only [List.nil_append]
    cases h : p ++ t with
    | nil =>
      rcases List.append_eq_nil.mp h with ⟨rfl, rfl⟩
      rfl
    | cons x xs =>
      rw [listInfixB, ← h, listPrefixB_self_append]
      rfl
  | cons x xs ih =>
    rw [List.cons_append, listInfixB, ih]
    exact Bool.or_true _

theorem failureAt_of_no_failures (r : Remote) (e : String) (h : r.failures = []) :
    failureAt r e = none := by
  simp [failureAt, h]

/-- In a list with pairwise-distinct ids, looking up the id of an element
returns the element itself. -/
theorem find_by_id {α : Type} (key : α → Nat) :
    ∀ (l : List α), (l.map key).Nodup → ∀ b ∈ l,
      l.find? (fun x => key x == key b) = some b := by
  intro l
  induction l with
  | nil => intro _ b hb; cases hb
  | cons h t ih =>
    intro hnd b hb
    rw [List.map_cons, List.nodup_cons] at hnd
    rcases List.mem_cons.mp hb with rfl | hbt
    · simp [List.find?]
    · have hne : (key h == key b) = false := by
        apply beq_eq_false_iff_ne.mpr
        intro heq
        exact hnd.1 (heq ▸ List.mem_map_of_mem key hbt)
      rw [List.find?, hne]
      exact ih hnd.2 b hbt

theorem getStacksR_self (r : Remote) (hf : r.failures = [])
    (hnd : (r.boards.map DeckBoard.id).Nodup) (b : DeckBoard) (hb : b ∈ r.boards) :
    getStacksR r b.id = (.ok b.stackList, [callGET (stacksEndpoint b.id)]) := by
  rw [getStacksR, failureAt_of_no_failures r _ hf]
  have : r.boards.find? (fun x => x.id == b.id) = some b := find_by_id DeckBoard.id r.boards hnd b hb
  rw [this]

theorem getCardsR_self (r : Remote) (hf : r.failures = [])
    (hnd : ((allStacks r).map DeckStack.id).Nodup) (s : DeckStack) (hs : s ∈ allStacks r) :
    getCardsR r s.id = (.ok s.cards, [callGET (cardsEndpoint s.id)]) := by
  rw [getCardsR, failureAt_of_no_failures r _ hf]
  have : (allStacks r).find? (fun x => x.id == s.id) = some s := find_by_id DeckStack.id (allStacks r) hnd s hs
  rw [this]

/-- positivity gives JS truthiness. -/
theorem truthy_of_pos {n : Nat} (h : 0 < n) : truthy (some n) = true := by
  simp [truthy]
  omega

/-- The scanning loop of `updateCard`/`deleteCard` computes exactly the
spec-side first match, visiting exactly the boards up to and including
the owning one (given a well-formed snapshot slice and no transport
failures). -/
theorem scanBoards_eq (r : Remote) (cardId : Nat)
    (hf : r.failures = []) (hnd : (r.boards.map DeckBoard.id).Nodup) :
    ∀ (bs : List DeckBoard),
      (∀ b ∈ bs, b ∈ r.boards ∧ 0 < b.id ∧ ∀ s ∈ b.stackList, 0 < s.id) →
      ∀ (st : Option Nat × Option Nat), (truthy st.1 && truthy st.2) = false →
      scanBoards r cardId st bs =
        (match specResolve cardId bs with
         | (some p, v) => (.ok (some p.1, some p.2), v.map (fun i => callGET (stacksEndpoint i)))
         | (none, v) => (.ok st, v.map (fun i => callGET (stacksEndpoint i)))) := by
  intro bs
  induction bs with
  | nil =>
    intro _ st hst
    rfl
  | cons b rest ih =>
    intro hb st hst
    obtain ⟨hbr, hbpos, hspos⟩ := hb b (List.mem_cons_self b rest)
    rw [scanBoards, getStacksR_self r hf hnd b hbr, rbind_ok]
    simp only [specResolve, firstOwningStack]
    cases hfind : b.stackList.find? (fun s => s.cards.any (fun c => c.id == cardId)) with
    | some s =>
      have hs : s ∈ b.stackList := List.mem_of_find?_eq_some hfind
      simp only [hfind, truthy_of_pos hbpos, truthy_of_pos (hspos s hs), Bool.and_self,
        if_true]
      rfl
    | none =>
      simp only [hfind, hst, if_false]
      rw [ih (fun x hx => hb x (List.mem_cons_of_mem b hx)) st hst]
      cases hspec : specResolve cardId rest with
      | mk res v =>
        cases res <;> simp

theorem getBoardsR_trace (r : Remote) : (getBoardsR r).2 = [callGET "/boards"] := by
  rw [getBoardsR]
  cases h : failureAt r "/boards" with
  | some p => obtain ⟨st, b⟩ := p; rfl
  | none => rfl

theorem getStacksR_trace (r : Remote) (bId : Nat) :
    (getStacksR r bId).2 = [callGET (stacksEndpoint bId)] := by
  rw [getStacksR]
  cases h : failureAt r (stacksEndpoint bId) with
  | some p => obtain ⟨st, b⟩ := p; rfl
  | none => cases hb : r.boards.find? (fun x => x.id == bId) <;> rfl

theorem rbind_trace_all {α β : Type} (x : Res α) (f : α → Res β) (p : RemoteCall → Bool)
    (hx : x.2.all p = true) (hf : ∀ a, ((f a).2.all p) = true) :
    ((rbind x f).2.all p) = true := by
  obtain ⟨x1, x2⟩ := x
  cases x1 with
  | error e => simpa using hx
  | ok a =>
    simp only [rbind, List.all_append, Bool.and_eq_true]
    exact ⟨hx, hf a⟩

/-- Every call issued while scanning boards for a card is a GET. -/
theorem scanBoards_trace_get (r : Remote) (cardId : Nat) :
    ∀ (bs : List DeckBoard) (st : Option Nat × Option Nat),
      ((scanBoards r cardId st bs).2.all (fun c => c.method == .GET)) = true := by
  intro bs
  induction bs with
  | nil => intro st; rfl
  | cons b rest ih =>
    intro st
    rw [scanBoards]
    apply rbind_trace_all
    · rw [getStacksR_trace]; rfl
    · intro stks
      cases hfind : stks.find? (fun s => s.cards.any (fun c => c.id == cardId)) <;>
          dsimp only <;> split <;> first | rfl | exact ih _

/-- A pair returned by the spec-side resolution names an actual board
and one of its stacks. -/
theorem specResolve_mem (cardId : Nat) :
    ∀ (bs : List DeckBoard) (p : Nat × Nat) (v : List Nat),
      specResolve cardId bs = (some p, v) →
      ∃ b ∈ bs, ∃ s ∈ b.stackList, p = (b.id, s.id) := by
  intro bs
  induction bs with
  | nil =>
    intro p v h
    simp [specResolve] at h
  | cons b rest ih =>
    intro p v h
    rw [specResolve] at h
    cases hfind : firstOwningStack cardId b.stackList with
    | some s =>
      rw [hfind] at h
      injection h with h1 h2
      injection h1 with h1
      exact ⟨b, List.mem_cons_self b rest, s,
        List.mem_of_find?_eq_some hfind, h1.symm⟩
    | none =>
      rw [hfind] at h
      cases hspec : specResolve cardId rest with
      | mk res v2 =>
        rw [hspec] at h
        injection h with h1 h2
        obtain ⟨bb, hbb, ss, hss, hp⟩ := ih p v2 (by rw [hspec, h1])
        exact ⟨bb, List.mem_cons_of_mem b hbb, ss, hss, hp⟩

/-- Card-ancestry resolution, closed form: `GET /boards`, then the
stack lists of each board in listing order up to and including the
owning one; the first owning pair is returned, `NotFound` when no
board owns the card. -/
theorem resolveCardAncestry_eq (r : Remote) (cardId : Nat)
    (hwf : r.wf) (hf : r.failures = [])
    (st : Option Nat × Option Nat) (hst : (truthy st.1 && truthy st.2) = false) :
    resolveCardAncestry r cardId st =
      (match specResolve cardId r.boards with
       | (some p, v) =>
         (.ok p, callGET "/boards" :: v.map (fun i => callGET (stacksEndpoint i)))
       | (none, v) =>
         (.error (.notFound ("Card " ++ toString cardId ++ " not found in any board")),
          callGET "/boards" :: v.map (fun i => callGET (stacksEndpoint i)))) := by
  obtain ⟨hnd, hnds, hbpos, hspos⟩ := hwf
  have hboards : getBoardsR r = (.ok r.boards, [callGET "/boards"]) := by
    rw [getBoardsR, failureAt_of_no_failures r _ hf]
  have hscan := scanBoards_eq r cardId hf hnd r.boards
    (fun b hb => ⟨hb, hbpos b hb, fun s hs => hspos s
      (List.mem_flatten.mpr ⟨b.stackList, List.mem_map_of_mem DeckBoard.stackList hb, hs⟩)⟩)
    st hst
  rw [resolveCardAncestry, hboards, rbind_ok, hscan]
  cases hspec : specResolve cardId r.boards with
  | mk res v =>
    cases res with
    | some p =>
      obtain ⟨b, hb, s, hs, hp⟩ := specResolve_mem cardId r.boards p v hspec
      have hb1 : truthy (some p.1) = true := by
        rw [hp]; exact truthy_of_pos (hbpos b hb)
      have hs1 : truthy (some p.2) = true := by
        rw [hp]
        exact truthy_of_pos (hspos s
          (List.mem_flatten.mpr ⟨b.stackList, List.mem_map_of_mem DeckBoard.stackList hb, hs⟩))
      rw [rbind_ok]
      simp [hb1, hs1]
    | none =>
      rw [rbind_ok]
      simp [hst]

/-- Every call issued by card-ancestry resolution is a GET (reads only,
no writes). -/
theorem resolveCardAncestry_trace_get (r : Remote) (cardId : Nat)
    (st : Option Nat × Option Nat) :
    ((resolveCardAncestry r cardId st).2.all (fun c => c.method == .GET)) = true := by
  rw [resolveCardAncestry]
  apply rbind_trace_all
  · apply rbind_trace_all
    · rw [getBoardsR_trace]; rfl
    · intro boards; exact scanBoards_trace_get r cardId boards st
  · intro st2; split <;> rfl

/-- Every call issued while scanning boards for a stack is a GET. -/
theorem scanBoardsForStack_trace_get (r : Remote) (stackId : Nat) (bId : Option Nat) :
    ∀ (bs : List DeckBoard),
      ((scanBoardsForStack r stackId bId bs).2.all (fun c => c.method == .GET)) = true := by
  intro bs
  induction bs with
  | nil => rfl
  | cons b rest ih =>
    rw [scanBoardsForStack]
    apply rbind_trace_all
    · rw [getStacksR_trace]; rfl
    · intro stks
      split <;> first | rfl | exact ih

/-- Every call issued by stack-to-board resolution is a GET. -/
theorem resolveStackBoard_trace_get (r : Remote) (stackId : Nat) (bId : Option Nat) :
    ((resolveStackBoard r stackId bId).2.all (fun c => c.method == .GET)) = true := by
  rw [resolveStackBoard]
  apply rbind_trace_all
  · apply rbind_trace_all
    · rw [getBoardsR_trace]; rfl
    · intro boards; exact scanBoardsForStack_trace_get r stackId bId boards
  · intro b; split <;> rfl

/-- The accumulation loop of the board-wide card read, closed form. -/
theorem readCardsLoop_eq (r : Remote) (hf : r.failures = [])
    (hnds : ((allStacks r).map DeckStack.id).Nodup) :
    ∀ (l : List DeckStack), (∀ s ∈ l, s ∈ allStacks r) →
      readCardsLoop r l =
        (.ok ((l.map DeckStack.cards).flatten),
         l.map (fun s => callGET (cardsEndpoint s.id))) := by
  intro l
  induction l with
  | nil => intro _; rfl
  | cons s rest ih =>
    intro hmem
    rw [readCardsLoop, getCardsR_self r hf hnds s (hmem s (List.mem_cons_self s rest)),
      rbind_ok, ih (fun x hx => hmem x (List.mem_cons_of_mem s hx)), rbind_ok]
    simp

theorem filter_comp {α : Type} (p q : α → Bool) (l : List α) :
    (l.filter p).filter q = l.filter (fun a => p a && q a) := by
  induction l with
  | nil => rfl
  | cons x t ih => cases hp : p x <;> cases hq : q x <;> simp [List.filter, hp, hq, ih]

theorem strContains_lower_empty (x : String) : strContains x (strLower "") = true := by
  have h : strLower "" = "" := rfl
  rw [h, strContains]
  exact listInfixB_nil_left x.data

/-- The chained in-process filters equal one pass with the spec-side
predicate. -/
theorem applyFilters_eq (p : ReadCardsParams) (l : List DeckCard) :
    applyFilters p l = l.filter (specCardPred p) := by
  rw [applyFilters]
  have hsearch :
      (if truthyStr p.search then l.filter (searchMatch (p.search.getD "")) else l) =
        l.filter (fun c => match p.search with | some q => searchMatch q c | none => true) := by
    cases hq : p.search with
    | none => simp [truthyStr]
    | some q =>
      by_cases hqe : q = ""
      · subst hqe
        have hall : ∀ c ∈ l, searchMatch "" c = (fun _ : DeckCard => true) c := by
          intro c _
          rw [searchMatch, strContains_lower_empty]
          rfl
        rw [if_neg (by decide), List.filter_congr hall]
        simp
      · have : truthyStr (some q) = true := by simpa [truthyStr] using hqe
        simp [this]
  rw [hsearch]
  cases ha : p.archived <;> cases hd : p.done <;>
    simp only [filter_comp] <;>
    · apply List.filter_congr
      intro c _
      simp [specCardPred, ha, hd, Bool.and_assoc]

theorem requestW_trace (r : Remote) (m : Method) (e : String) (b : List (String × Value)) :
    (requestW r m e b).2 = [⟨m, e, b⟩] := by
  rw [requestW]
  cases h : failureAt r e with
  | some p => obtain ⟨st, bd⟩ := p; rfl
  | none => rfl

theorem requestW_ok (r : Remote) (m : Method) (e : String) (b : List (String × Value))
    (hf : r.failures = []) : requestW r m e b = (.ok (), [⟨m, e, b⟩]) := by
  rw [requestW, failureAt_of_no_failures r e hf]

theorem optEntry_keys (k : String) (v : Option Value) (x : String) :
    x ∈ (optEntry k v).map Prod.fst ↔ (x = k ∧ v.isSome) := by
  cases v <;> simp [optEntry]

/-! ## Concrete fixtures used by witnesses and counterexamples -/

/-- An empty remote with no stipulated failures. -/
def rEmpty : Remote := ⟨[], []⟩

/-- A card with id 7, living in stack 33 of board 20 below. -/
def cFix : DeckCard := ⟨7, "Fix the header", "Top area", false, none⟩

/-- A snapshot with two boards: board 10 owns stack 31; board 20 owns
stacks 32 and 33, and card 7 lives in stack 33. -/
def rFix : Remote :=
  ⟨[⟨10, "B1", [⟨31, "S1", []⟩]⟩, ⟨20, "B2", [⟨32, "S2", []⟩, ⟨33, "S3", [cFix]⟩]⟩], []⟩

/-- Update data carrying both ancestor ids and a title. -/
def dCex1 : UpdateCardData := { cardId := 3, boardId := some 1, stackId := some 2, title := some "T" }

/-! ## Claims -/

/-- C1, counterexample.  The claim states that after resolution all
ancestor ids (`boardId` AND `stackId`) and the `cardId` are removed
from the outgoing PUT body.  At this concrete input (caller supplies
`boardId`, `stackId` and a `title`), the issued PUT body still
contains the `stackId` key: the rest-spread
`const { cardId, boardId: _, ...updateData } = data` removes only
`cardId` and `boardId`. -/
theorem updateCard_body_keeps_stackId :
    updateCardR rEmpty dCex1 =
      (.ok (), [⟨.PUT, "/boards/1/stacks/2/cards/3",
        [("stackId", Value.vNat 2), ("title", Value.vStr "T")]⟩]) ∧
    ("stackId", Value.vNat 2) ∈ updateBody dCex1 := by
  constructor <;> decide

/-- C1, amended.  Every PUT issued by `updateCard` carries the
rest-spread body `updateBody d`; that body never contains the
`cardId` or `boardId` keys, but it retains the `stackId` key exactly
when the caller supplied `stackId` — the caller-supplied `stackId` is
forwarded in the payload rather than stripped. -/
theorem updateCard_put_body (r : Remote) (d : UpdateCardData) :
    (∀ c ∈ (updateCardR r d).2, c.method = .PUT → c.body = updateBody d) ∧
    "cardId" ∉ (updateBody d).map Prod.fst ∧
    "boardId" ∉ (updateBody d).map Prod.fst ∧
    ("stackId" ∈ (updateBody d).map Prod.fst ↔ d.stackId.isSome) := by
  refine ⟨?_, ?_, ?_, ?_⟩
  · intro c hc hput
    rw [updateCardR] at hc
    split at hc
    · rw [putCard, requestW_trace] at hc
      rcases List.mem_singleton.mp hc with rfl
      rfl
    · rw [rbind_eta] at hc
      cases hres : (resolveCardAncestry r d.cardId (d.boardId, d.stackId)).1 with
      | error e =>
        rw [hres] at hc
        have hall := resolveCardAncestry_trace_get r d.cardId (d.boardId, d.stackId)
        rw [List.all_eq_true] at hall
        have := hall c hc
        rw [beq_iff_eq] at this
        rw [this] at hput
        cases hput
      | ok bs =>
        rw [hres] at hc
        rcases List.mem_append.mp hc with hc1 | hc2
        · have hall := resolveCardAncestry_trace_get r d.cardId (d.boardId, d.stackId)
          rw [List.all_eq_true] at hall
          have := hall c hc1
          rw [beq_iff_eq] at this
          rw [this] at hput
          cases hput
        · rw [putCard, requestW_trace] at hc2
          rcases List.mem_singleton.mp hc2 with rfl
          rfl
  · simp only [updateBody, List.map_append, List.mem_append, optEntry_keys]
    simp
  · simp only [updateBody, List.map_append, List.mem_append, optEntry_keys]
    simp
  · simp only [updateBody, List.map_append, List.mem_append, optEntry_keys]
    simp

/-- C1, witness for the amended theorem at the concrete input of the
counterexample. -/
theorem updateCard_put_body_witness :
    (⟨.PUT, "/boards/1/stacks/2/cards/3",
      [("stackId", Value.vNat 2), ("title", Value.vStr "T")]⟩ : RemoteCall).body =
        updateBody dCex1 ∧
    "cardId" ∉ (updateBody dCex1).map Prod.fst := by
  constructor
  · exact (updateCard_put_body rEmpty dCex1).1 _ (by decide) rfl
  · exact (updateCard_put_body rEmpty dCex1).2.1

/-- C3.  Card-ancestry resolution fetches the board list, then each
stacks of each board in listing order, returns the first `(board, stack)`
pair whose embedded cards contain the card id, issues no further
stack-list fetches once the pair is found (the trace covers exactly
the boards up to and including the owning one), and fails with
`NotFound` when every board is exhausted without a match. -/
theorem resolveCardAncestry_spec (r : Remote) (cardId : Nat)
    (hwf : r.wf) (hf : r.failures = []) :
    resolveCardAncestry r cardId (none, none) =
      (match specResolve cardId r.boards with
       | (some p, v) =>
         (.ok p, callGET "/boards" :: v.map (fun i => callGET (stacksEndpoint i)))
       | (none, v) =>
         (.error (.notFound ("Card " ++ toString cardId ++ " not found in any board")),
          callGET "/boards" :: v.map (fun i => callGET (stacksEndpoint i)))) :=
  resolveCardAncestry_eq r cardId hwf hf (none, none) rfl

/-- C3, witness: in the two-board fixture the resolution of card 7
finds the pair `(20, 33)` after fetching the board list and both
the stacks of both boards, and never fetches any card list. -/
theorem resolveCardAncestry_spec_witness :
    resolveCardAncestry rFix 7 (none, none) =
      (.ok (20, 33),
       [callGET "/boards", callGET "/boards/10/stacks", callGET "/boards/20/stacks"]) := by
  rw [resolveCardAncestry_spec rFix 7 (by decide) rfl]
  decide

/-- C2, counterexample.  The claim states that every argument bundle
missing a field required by the downstream remote call fails with
`MissingParameter` before any remote call.  Creating a stack with no
`boardId` (required by the POST path) instead issues the POST — to a
path with an `undefined` segment — with no validation failure and a
remote call on the wire. -/
theorem createStack_no_validation :
    createStackR rEmpty { title := "New" } =
      (.ok (), [⟨.POST, "/boards/undefined/stacks",
        [("title", Value.vStr "New"), ("order", Value.vNat 999)]⟩]) := by
  decide

/-- C2, amended.  Fail-fast `MissingParameter` validation before any
remote call holds for the required read/update/delete handler
ancestor checks (shown here: comment and attachment deletion require
`cardId`, the stacks read requires `boardId` — each fails naming the
absent field with an empty call trace); create operations perform no
such validation — a stack create with a missing `boardId` always
issues its POST with an `undefined` path segment. -/
theorem validation_before_network_amended :
    (∀ r id, handleDeleteComment r id none =
      (.error (.missingParameter "Card ID is required to delete comment"), [])) ∧
    (∀ r id, handleDeleteAttachment r id none =
      (.error (.missingParameter "Card ID is required to delete attachment"), [])) ∧
    (∀ r, handleReadStacks r none =
      (.error (.missingParameter "Board ID is required to get stacks"), [])) ∧
    (∀ r d, d.boardId = none →
      (createStackR r d).2 = [⟨.POST, "/boards/undefined/stacks",
        [("title", Value.vStr d.title), ("order", Value.vNat (d.order.getD 999))]⟩]) := by
  refine ⟨fun r id => rfl, fun r id => rfl, fun r => rfl, ?_⟩
  intro r d hb
  rw [createStackR, hb, requestW_trace]
  rfl

/-- C2, witness for the amended theorem: the create branch at the
concrete missing-`boardId` input. -/
theorem validation_before_network_amended_witness :
    (createStackR rEmpty { title := "New" }).2 =
      [⟨.POST, "/boards/undefined/stacks",
        [("title", Value.vStr "New"), ("order", Value.vNat 999)]⟩] :=
  validation_before_network_amended.2.2.2 rEmpty { title := "New" } rfl

/-- C4.  Updating or deleting a Stack or Label without a caller-supplied
`boardId` fails with `MissingParameter` naming "Board ID" and issues no
remote call; updating or deleting a Card in the same
ancestors-missing situation succeeds by auto-resolving the ancestry
from the remote hierarchy (whenever the card exists in a well-formed
snapshot with no failing endpoints). -/
theorem stack_label_card_asymmetry :
    (∀ r id d, handleUpdateStack r id none d =
      (.error (.missingParameter "Board ID is required to update stack"), [])) ∧
    (∀ r id d, handleUpdateLabel r id none d =
      (.error (.missingParameter "Board ID is required to update label"), [])) ∧
    (∀ r id, handleDeleteStack r id none =
      (.error (.missingParameter "Board ID is required to delete stack"), [])) ∧
    (∀ r id, handleDeleteLabel r id none =
      (.error (.missingParameter "Board ID is required to delete label"), [])) ∧
    (∀ (r : Remote) (cardId : Nat) (p : Nat × Nat) (v : List Nat),
      r.wf → r.failures = [] → specResolve cardId r.boards = (some p, v) →
      (handleDeleteCard r cardId).1 = .ok ⟨true, "Card " ++ toString cardId ++ " deleted"⟩) ∧
    (∀ (r : Remote) (id : Nat) (p : Nat × Nat) (v : List Nat) (d : UpdateCardData),
      d.boardId = none → d.stackId = none →
      r.wf → r.failures = [] → specResolve id r.boards = (some p, v) →
      (handleUpdateCard r id d).1 = .ok ()) := by
  refine ⟨fun r id d => rfl, fun r id d => rfl, fun r id => rfl, fun r id => rfl, ?_, ?_⟩
  · intro r cardId p v hwf hf hspec
    have hres := resolveCardAncestry_eq r cardId hwf hf (none, none) rfl
    rw [hspec] at hres
    rw [handleDeleteCard, deleteCardR, if_neg (by decide), hres, rbind_ok,
      requestW_ok r _ _ _ hf]
    rfl
  · intro r id p v d hb hst hwf hf hspec
    have hres := resolveCardAncestry_eq r id hwf hf (d.boardId, d.stackId)
      (by rw [hb, hst]; rfl)
    rw [hspec] at hres
    rw [handleUpdateCard, updateCardR]
    have hcond : (truthy ({ d with cardId := id } : UpdateCardData).boardId &&
        truthy ({ d with cardId := id } : UpdateCardData).stackId) = false := by
      show (truthy d.boardId && truthy d.stackId) = false
      rw [hb, hst]
      rfl
    rw [if_neg (by rw [hcond]; exact Bool.false_ne_true)]
    show (rbind (resolveCardAncestry r id (d.boardId, d.stackId)) _).1 = _
    rw [hres, rbind_ok, putCard, requestW_ok r _ _ _ hf]

/-- C4, witness: in the two-board fixture, deleting card 7 with no
ancestors succeeds via auto-resolution, and deleting stack 31 with no
`boardId` fails with the Board-ID `MissingParameter` and an empty
trace. -/
theorem stack_label_card_asymmetry_witness :
    (handleDeleteCard rFix 7).1 = .ok ⟨true, "Card 7 deleted"⟩ ∧
    handleDeleteStack rFix 31 none =
      (.error (.missingParameter "Board ID is required to delete stack"), []) := by
  constructor
  · exact stack_label_card_asymmetry.2.2.2.2.1 rFix 7 (20, 33) [10, 20]
      (by decide) rfl (by decide)
  · exact stack_label_card_asymmetry.2.2.1 rFix 31

/-- C5.  A board-wide card read (boardId supplied, stackId absent)
returns the concatenation of the card lists of every stack under the
board, filtered after full assembly by the spec-side predicate
(case-insensitive title/description substring match for `search`,
exact flag equality for explicitly supplied `archived`/`done`, no
filter for absent params); with no filters the full concatenation is
returned unchanged.  The trace shows every stack is fetched before any
filtering. -/
theorem readCards_boardwide_filter_spec (r : Remote) (p : ReadCardsParams) (bd : DeckBoard)
    (hwf : r.wf) (hf : r.failures = [])
    (hs : p.stackId = none) (hb : p.boardId = some bd.id) (hbd : bd ∈ r.boards) :
    handleReadCards r p =
      (.ok (((bd.stackList.map DeckStack.cards).flatten).filter (specCardPred p)),
       callGET (stacksEndpoint bd.id) ::
         bd.stackList.map (fun s => callGET (cardsEndpoint s.id))) ∧
    (p.search = none → p.archived = none → p.done = none →
      (handleReadCards r p).1 = .ok ((bd.stackList.map DeckStack.cards).flatten)) := by
  obtain ⟨hnd, hnds, hbpos, hspos⟩ := hwf
  have hmem : ∀ s ∈ bd.stackList, s ∈ allStacks r := fun s hsm =>
    List.mem_flatten.mpr ⟨bd.stackList, List.mem_map_of_mem DeckBoard.stackList hbd, hsm⟩
  have hmain : handleReadCards r p =
      (.ok (((bd.stackList.map DeckStack.cards).flatten).filter (specCardPred p)),
       callGET (stacksEndpoint bd.id) ::
         bd.stackList.map (fun s => callGET (cardsEndpoint s.id))) := by
    rw [handleReadCards, hs, hb, if_neg (by decide), if_pos (truthy_of_pos (hbpos bd hbd))]
    show rbind (getStacksR r bd.id) _ = _
    rw [getStacksR_self r hf hnd bd hbd, rbind_ok,
      readCardsLoop_eq r hf hnds bd.stackList hmem, rbind_ok, applyFilters_eq]
    simp
  refine ⟨hmain, fun h1 h2 h3 => ?_⟩
  rw [hmain]
  show Except.ok _ = _
  rw [List.filter_congr (q := fun _ => true) (fun c _ => by simp [specCardPred, h1, h2, h3]),
    List.filter_true]

/-- Board 20 of the fixture. -/
def bFix : DeckBoard := ⟨20, "B2", [⟨32, "S2", []⟩, ⟨33, "S3", [cFix]⟩]⟩

/-- Board-wide read params searching for "fix". -/
def pW5 : ReadCardsParams := { boardId := some 20, search := some "fix" }

/-- C5, witness: a board-wide read of board 20 with search "fix"
fetches both stacks and keeps exactly the matching card. -/
theorem readCards_boardwide_filter_spec_witness :
    handleReadCards rFix pW5 =
      (.ok (((bFix.stackList.map DeckStack.cards).flatten).filter (specCardPred pW5)),
       callGET (stacksEndpoint bFix.id) ::
         bFix.stackList.map (fun s => callGET (cardsEndpoint s.id))) ∧
    ((bFix.stackList.map DeckStack.cards).flatten).filter (specCardPred pW5) = [cFix] := by
  constructor
  · exact (readCards_boardwide_filter_spec rFix pW5 bFix (by decide) rfl rfl rfl
      (by decide)).1
  · decide

/-- C10.  Whenever `stackId` is supplied on a plural card read, the
direct-fetch mode is taken no matter which other params
(`boardId`, `search`, `archived`, `done`) are supplied: the handler
call equals the bare stack fetch, so the card list of the stack is returned
unfiltered and the filter params are silently ignored. -/
theorem readCards_stackId_direct (r : Remote) (p : ReadCardsParams) (s : Nat)
    (hs : p.stackId = some s) (hpos : 0 < s) :
    handleReadCards r p = getCardsR r s := by
  rw [handleReadCards, hs, if_pos (truthy_of_pos hpos)]
  rfl

/-- C10, witness: with `stackId`, `boardId`, `search`, `archived` and
`done` all supplied, the read equals the bare fetch of stack 33 and
returns its card list unfiltered (the search "zz" matches nothing, yet
the card is returned). -/
theorem readCards_stackId_direct_witness :
    handleReadCards rFix
        { stackId := some 33, boardId := some 20, search := some "zz",
          archived := some true, done := some false } =
      getCardsR rFix 33 ∧
    (getCardsR rFix 33).1 = .ok [cFix] := by
  constructor
  · exact readCards_stackId_direct rFix _ 33 rfl (by decide)
  · decide

/-- C6.  `move` and `reorder` on the same card/stack/order triple
produce an identical outgoing remote call (`reorder` delegates to
`moveCard`), and a missing `order` defaults to the high sentinel 999
in the PUT body on both paths. -/
theorem move_reorder_equivalent (r : Remote) (id : Nat) (p : ActionParams) :
    performAction r .card id .move p = performAction r .card id .reorder p ∧
    (p.order = none →
      (performAction r .card id .move p).2 =
        [⟨.PUT, "/cards/" ++ toString id ++ "/reorder",
          optEntry "stackId" (p.stackId.map Value.vNat) ++ [("order", Value.vNat 999)]⟩]) := by
  constructor
  · rfl
  · intro ho
    show (moveCardR r id p.stackId p.order).2 = _
    rw [moveCardR, requestW_trace, ho]
    rfl

/-- C6, witness at card 7, target stack 33, absent order. -/
theorem move_reorder_equivalent_witness :
    performAction rFix .card 7 .move { stackId := some 33 } =
      performAction rFix .card 7 .reorder { stackId := some 33 } ∧
    (performAction rFix .card 7 .move { stackId := some 33 }).2 =
      [⟨.PUT, "/cards/7/reorder",
        [("stackId", Value.vNat 33), ("order", Value.vNat 999)]⟩] := by
  constructor
  · exact (move_reorder_equivalent rFix 7 { stackId := some 33 }).1
  · rw [(move_reorder_equivalent rFix 7 { stackId := some 33 }).2 rfl]
    decide

/-- C7.  Every action applied to entity `stack` (the only
representable entity/action pairs outside the documented set) fails
with `UnsupportedAction` and issues zero remote calls. -/
theorem performAction_stack_unsupported (r : Remote) (id : Nat)
    (a : DeckAction) (p : ActionParams) :
    performAction r .stack id a p =
      (.error (.unsupportedAction "Actions for entity \"stack\" are not implemented"), []) :=
  rfl

/-- C8.  For card create/update/delete with missing ancestor ids, if
ancestry resolution fails (a failed fetch inside the scan, or
exhaustion without a match), the operation surfaces that error with
the resolution trace as its entire trace, and that trace contains only
GETs — no POST/PUT/DELETE reaches the remote system. -/
theorem resolution_failure_no_write :
    (∀ (r : Remote) (d : UpdateCardData) (e : DeckError),
      (truthy d.boardId && truthy d.stackId) = false →
      (resolveCardAncestry r d.cardId (d.boardId, d.stackId)).1 = .error e →
      updateCardR r d = (.error e, (resolveCardAncestry r d.cardId (d.boardId, d.stackId)).2) ∧
      ((resolveCardAncestry r d.cardId (d.boardId, d.stackId)).2.all
        (fun c => c.method == .GET)) = true) ∧
    (∀ (r : Remote) (cardId : Nat) (bId sId : Option Nat) (e : DeckError),
      (truthy bId && truthy sId) = false →
      (resolveCardAncestry r cardId (bId, sId)).1 = .error e →
      deleteCardR r cardId bId sId =
        (.error e, (resolveCardAncestry r cardId (bId, sId)).2) ∧
      ((resolveCardAncestry r cardId (bId, sId)).2.all (fun c => c.method == .GET)) = true) ∧
    (∀ (r : Remote) (d : CreateCardData) (e : DeckError),
      truthy d.boardId = false →
      (resolveStackBoard r d.stackId d.boardId).1 = .error e →
      createCardR r d = (.error e, (resolveStackBoard r d.stackId d.boardId).2) ∧
      ((resolveStackBoard r d.stackId d.boardId).2.all (fun c => c.method == .GET)) = true) := by
  refine ⟨?_, ?_, ?_⟩
  · intro r d e h1 hres
    refine ⟨?_, resolveCardAncestry_trace_get r d.cardId (d.boardId, d.stackId)⟩
    rw [updateCardR, if_neg (by rw [h1]; exact Bool.false_ne_true), rbind_eta, hres]
  · intro r cardId bId sId e h1 hres
    refine ⟨?_, resolveCardAncestry_trace_get r cardId (bId, sId)⟩
    rw [deleteCardR, if_neg (by rw [h1]; exact Bool.false_ne_true), rbind_eta, hres]
  · intro r d e h1 hres
    refine ⟨?_, resolveStackBoard_trace_get r d.stackId d.boardId⟩
    rw [createCardR, if_neg (by rw [h1]; exact Bool.false_ne_true), rbind_eta, hres]

/-- C8, witness: updating card 5 against an empty remote exhausts
resolution, surfaces `NotFound`, and the whole trace is GETs only. -/
theorem resolution_failure_no_write_witness :
    updateCardR rEmpty { cardId := 5 } =
      (.error (.notFound "Card 5 not found in any board"),
       (resolveCardAncestry rEmpty 5 (none, none)).2) ∧
    ((resolveCardAncestry rEmpty 5 (none, none)).2.all (fun c => c.method == .GET)) = true :=
  resolution_failure_no_write.1 rEmpty { cardId := 5 }
    (.notFound "Card 5 not found in any board") rfl (by decide)

theorem strContains_of_data (hay needle : String) (a t : List Char)
    (h : hay.data = a ++ (needle.data ++ t)) : strContains hay needle = true := by
  rw [strContains, h]
  exact listInfixB_append _ _ _

/-- A remote whose only stipulated response is a 404 (body
"Comment not found") for the deletion of comment 99 under card 1. -/
def rC9 : Remote := ⟨[], [⟨"/cards/1/comments/99", 404, "Comment not found"⟩]⟩

/-- C9, counterexample.  The claim states every non-success remote
response surfaces an error whose message includes the status code and
the remote body verbatim.  Deleting nonexistent comment 99 under card
1 (remote answers 404 with body "Comment not found") surfaces
`Failed to delete comment: 404`: the status is preserved but the
remote body does not appear in the message. -/
theorem deleteComment_error_omits_body :
    deleteCommentR rC9 1 99 =
      (.error (.remoteError 404 "Failed to delete comment: 404"),
       [⟨.DELETE, "/cards/1/comments/99", []⟩]) ∧
    strContains "Failed to delete comment: 404" "Comment not found" = false := by
  constructor <;> decide

/-- C9, amended.  Calls going through the generic `request` helper
surface an error message containing both the status code and the
remote body verbatim; the comment-deletion path bypasses that helper
and surfaces a `RemoteError` that preserves the remote status code
(in the error value and in the message) but omits the response
body. -/
theorem remote_error_message_amended :
    (∀ (st : Nat) (b : String),
      strContains (httpMsg st b) (toString st) = true ∧
      strContains (httpMsg st b) b = true) ∧
    (∀ (r : Remote) (cardId commentId st : Nat) (b : String),
      failureAt r ("/cards/" ++ toString cardId ++ "/comments/" ++ toString commentId) =
        some (st, b) →
      deleteCommentR r cardId commentId =
        (.error (.remoteError st ("Failed to delete comment: " ++ toString st)),
         [⟨.DELETE, "/cards/" ++ toString cardId ++ "/comments/" ++ toString commentId, []⟩]) ∧
      strContains ("Failed to delete comment: " ++ toString st) (toString st) = true) := by
  constructor
  · intro st b
    constructor
    · exact strContains_of_data _ _ "Deck API Error (".data ("): ".data ++ b.data)
        (by simp [httpMsg, String.data_append, List.append_assoc])
    · exact strContains_of_data _ _
        ("Deck API Error (".data ++ ((toString st).data ++ "): ".data)) []
        (by simp [httpMsg, String.data_append, List.append_assoc])
  · intro r cardId commentId st b hfail
    constructor
    · rw [deleteCommentR]
      simp only [hfail]
    · exact strContains_of_data _ _ "Failed to delete comment: ".data []
        (by simp [String.data_append])

/-- C9, witness for the amended theorem: a generic-request 404 with
body "gone" carries both "404" and "gone" in its message, and the
comment-deletion failure of the counterexample remote preserves
status 404. -/
theorem remote_error_message_amended_witness :
    (strContains (httpMsg 404 "gone") (toString 404) = true ∧
     strContains (httpMsg 404 "gone") "gone" = true) ∧
    (deleteCommentR rC9 1 99 =
      (.error (.remoteError 404 ("Failed to delete comment: " ++ toString 404)),
       [⟨.DELETE, "/cards/" ++ toString 1 ++ "/comments/" ++ toString 99, []⟩]) ∧
     strContains ("Failed to delete comment: " ++ toString 404) (toString 404) = true) := by
  constructor
  · exact remote_error_message_amended.1 404 "gone"
  · exact remote_error_message_amended.2 rC9 1 99 404 "Comment not found" (by decide)
